import Mathlib

/-!
A shallow embedding of the notification backend in `functions/src/index.ts`:
three handlers (`sendNotificationToUser`, `updateBadgeCount`,
`sendEventReminders`) over an explicit `World` carrying the document store,
the token store and failure-injection flags.  Each handler body returns an
`Outcome` recording the pushes sent, the documents created, the event-flag
writes issued, and the error (if any) the body would throw; the exported
handler wraps the body in the source's top-level try/catch, which swallows
the error.
-/

/-- Firestore `Timestamp`: seconds since epoch plus a nanosecond part.
Firestore orders timestamps by seconds, then nanoseconds. -/
structure Timestamp where
  seconds : Int
  nanoseconds : Nat
deriving DecidableEq, Repr

/-- Firestore timestamp order (seconds, then nanoseconds). -/
def tsLe (a b : Timestamp) : Bool :=
  a.seconds < b.seconds || (a.seconds = b.seconds && a.nanoseconds ≤ b.nanoseconds)

/-- JSON-like values stored in `metadata` maps.  JS numbers are modelled at
integer granularity (none of the verified properties depends on float
behaviour). -/
inductive Value where
  | vnull
  | vundef
  | vbool (b : Bool)
  | vnum (n : Int)
  | vstr (s : String)
  | varr (xs : List Value)
  | vobj (fs : List (String × Value))

/-- JS `typeof v === "object"`: true for `null`, arrays and plain objects. -/
def typeofObject : Value → Bool
  | .vnull => true
  | .varr _ => true
  | .vobj _ => true
  | _ => false

mutual
/-- `JSON.stringify` (string escaping elided: metadata keys and the values the
claims touch contain no quotes or backslashes). -/
def jsonStringify : Value → String
  | .vnull => "null"
  | .vundef => "undefined"
  | .vbool b => if b then "true" else "false"
  | .vnum n => toString n
  | .vstr s => "\"" ++ s ++ "\""
  | .varr xs => "[" ++ jsonStringifyList xs ++ "]"
  | .vobj fs => "\x7b" ++ jsonStringifyFields fs ++ "\x7d"

/-- Comma-joined serialization of array elements. -/
def jsonStringifyList : List Value → String
  | [] => ""
  | [x] => jsonStringify x
  | x :: xs => jsonStringify x ++ "," ++ jsonStringifyList xs

/-- Comma-joined serialization of object fields. -/
def jsonStringifyFields : List (String × Value) → String
  | [] => ""
  | [(k, v)] => "\"" ++ k ++ "\":" ++ jsonStringify v
  | (k, v) :: fs => "\"" ++ k ++ "\":" ++ jsonStringify v ++ "," ++ jsonStringifyFields fs
end

/-- JS `String(v)` for the primitive values reachable in
`stringifyJS` (the object branches there go through `jsonStringify`). -/
def stringOfPrim : Value → String
  | .vnull => "null"
  | .vundef => "undefined"
  | .vbool b => if b then "true" else "false"
  | .vnum n => toString n
  | .vstr s => s
  | .varr xs => jsonStringify (.varr xs)
  | .vobj fs => jsonStringify (.vobj fs)

/-- `typeof v === "object" ? JSON.stringify(v) : String(v)` — how each
metadata value is flattened into the outbound data payload. -/
def stringifyJS (v : Value) : String :=
  if typeofObject v then jsonStringify v else stringOfPrim v

/-- JS falsiness of an optional string field: absent or empty. -/
def jsFalsyStr : Option String → Bool
  | none => true
  | some s => s = ""

/-- JS truthiness of an optional boolean field: present and `true`. -/
def jsTruthyBool : Option Bool → Bool
  | some true => true
  | _ => false

/-- Template-literal interpolation of an optional string
 (missing fields print as `undefined`). -/
def jsShow : Option String → String
  | none => "undefined"
  | some s => s

/-- `x || ""`. -/
def jsOrEmpty (o : Option String) : String := o.getD ""

/-- The `NotificationData` interface: a stored notification record as the
dispatcher and badge handlers read it. -/
structure NotificationData where
  recipientId : Option String := none
  title : Option String := none
  message : Option String := none
  type : Option String := none
  status : Option String := none
  createdAt : Option Timestamp := none
  metadata : Option (List (String × Value)) := none
  actionLink : Option String := none
  imageUrl : Option String := none

/-- The `EventData` interface. -/
structure EventData where
  creatorId : Option String := none
  name : Option String := none
  startTime : Option Timestamp := none
  venueAddress : Option String := none
  reminderSent : Option Bool := none
  attendees : Option (List String) := none
deriving DecidableEq, Repr

/-- A `user_tokens/{uid}` document: the `token` field may be absent
or empty. -/
structure TokenDoc where
  token : Option String := none
deriving DecidableEq, Repr

/-- One outbound FCM message (`admin.messaging().send` argument). -/
structure PushMessage where
  token : String
  title : Option String := none
  body : Option String := none
  imageUrl : Option String := none
  data : List (String × String) := []
  androidPriority : Option String := none
  androidSound : Option String := none
  androidChannelId : Option String := none
  apnsSound : Option String := none
  apnsBadge : Option Nat := none
deriving DecidableEq, Repr

/-- A notification document created by the reminder generator
 (the `.add({...})` payload). -/
structure GenNotification where
  recipientId : String
  recipientType : String
  title : String
  message : String
  type : String
  status : String
  createdAt : Timestamp
  metadata : List (String × Value)
  actionLink : String

/-- Failures a handler body can throw. -/
inductive Err where
  | store
  | transport
deriving DecidableEq, Repr

/-- The effects of one handler invocation: pushes attempted, documents
created (collection, payload), event ids whose `reminderSent` flag was
written, and the error the body would throw (cleared by the try/catch of
the exported handler). -/
structure Outcome where
  sends : List PushMessage := []
  created : List (String × GenNotification) := []
  flagWrites : List String := []
  error : Option Err := none

/-- The environment of an invocation: document store contents at query time
plus flags injecting store/transport failures. -/
structure World where
  tokens : String → Option TokenDoc
  notifStore : String → List NotificationData
  events : List (String × EventData)
  tokenGetFails : Bool := false
  unreadQueryFails : Bool := false
  sendFails : Bool := false
  eventsQueryFails : Bool := false
  batchCommitFails : Bool := false
  createFails : Bool := false

/-- Set `k` to `v` in a JS-object-style string map: overwrite in place if the
key exists, append otherwise. -/
def setKey : List (String × String) → String → String → List (String × String)
  | [], k, v => [(k, v)]
  | (k', v') :: rest, k, v =>
    if k' = k then (k, v) :: rest else (k', v') :: setKey rest k v

/-- First-match lookup in a string map. -/
def lookupKey : List (String × String) → String → Option String
  | [], _ => none
  | (k', v) :: rest, k => if k' = k then some v else lookupKey rest k

/-- `messageData[key] = typeof v === "object" ? JSON.stringify(v) : String(v)`. -/
def applyMeta (acc : List (String × String)) (kv : String × Value) :
    List (String × String) :=
  setKey acc kv.1 (stringifyJS kv.2)

/-- The dispatcher's `messageData`: fixed fields first, then the metadata
 (minus `fullDescription` / `fullContent`) flattened over them in order. -/
def buildMessageData (nid : String) (n : NotificationData) :
    List (String × String) :=
  let base : List (String × String) :=
    [("notificationId", nid),
     ("type", jsOrEmpty n.type),
     ("click_action", "FLUTTER_NOTIFICATION_CLICK"),
     ("actionLink", jsOrEmpty n.actionLink)]
  match n.metadata with
  | none => base
  | some md =>
    (md.filter fun kv =>
      !(kv.1 = "fullDescription") && !(kv.1 = "fullContent")).foldl applyMeta base

/-- The dispatcher's full outbound message. -/
def buildPushMessage (nid : String) (n : NotificationData) (token : String) :
    PushMessage :=
  { token := token
    title := n.title
    body := n.message
    imageUrl := n.imageUrl
    data := buildMessageData nid n
    androidPriority := some "high"
    androidSound := some "default"
    androidChannelId := some "high_importance_channel"
    apnsSound := some "default"
    apnsBadge := some 1 }

/-- Body of `sendNotificationToUser` (inside the try). -/
def sendNotificationToUserBody (w : World) (collection nid : String)
    (n : NotificationData) : Outcome :=
  if !(collection = "user_notifications" || collection = "creator_notifications") then
    {}
  else if jsFalsyStr n.recipientId then
    {}
  else
    let rid := jsOrEmpty n.recipientId
    if w.tokenGetFails then { error := some .store }
    else
      match w.tokens rid with
      | none => {}
      | some doc =>
        if jsFalsyStr doc.token then {}
        else
          let msg := buildPushMessage nid n (jsOrEmpty doc.token)
          if w.sendFails then { sends := [msg], error := some .transport }
          else { sends := [msg] }

/-- `sendNotificationToUser`: the body wrapped in the catch-all. -/
def sendNotificationToUser (w : World) (collection nid : String)
    (n : NotificationData) : Outcome :=
  { sendNotificationToUserBody w collection nid n with error := none }

/-- Count of documents in `collection` with matching `recipientId` and
`status == "unread"` — the badge handler's re-query. -/
def countUnread (store : String → List NotificationData)
    (collection rid : String) : Nat :=
  ((store collection).filter fun r =>
    r.recipientId = some rid && r.status = some "unread").length

/-- Body of `updateBadgeCount` (inside the try). -/
def updateBadgeCountBody (w : World) (collection _nid : String)
    (before after : NotificationData) : Outcome :=
  if !(collection = "user_notifications" || collection = "creator_notifications") then
    {}
  else if before.status = some "unread" && !(after.status = some "unread") then
    if jsFalsyStr after.recipientId then {}
    else
      let rid := jsOrEmpty after.recipientId
      if w.unreadQueryFails then { error := some .store }
      else
        let unreadCount := countUnread w.notifStore collection rid
        if w.tokenGetFails then { error := some .store }
        else
          match w.tokens rid with
          | none => {}
          | some doc =>
            if jsFalsyStr doc.token then {}
            else
              let msg : PushMessage :=
                { token := jsOrEmpty doc.token
                  apnsBadge := some unreadCount
                  data := [("updateBadge", "true")] }
              if w.sendFails then { sends := [msg], error := some .transport }
              else { sends := [msg] }
  else {}

/-- `updateBadgeCount`: the body wrapped in the catch-all. -/
def updateBadgeCount (w : World) (collection nid : String)
    (before after : NotificationData) : Outcome :=
  { updateBadgeCountBody w collection nid before after with error := none }

/-- `t.toMillis()` at integer-millisecond granularity. -/
def optMillisValue : Option Timestamp → Value
  | none => .vundef
  | some t => .vnum (t.seconds * 1000 + (t.nanoseconds : Int) / 1000000)

/-- Lift an optional string field into a metadata value. -/
def optStrValue : Option String → Value
  | none => .vundef
  | some s => .vstr s

/-- The metadata object attached to every generated reminder. -/
def reminderMetadata (eid : String) (e : EventData) : List (String × Value) :=
  [("eventId", .vstr eid),
   ("eventName", optStrValue e.name),
   ("startTime", optMillisValue e.startTime),
   ("venueAddress", optStrValue e.venueAddress)]

/-- The `creator_notifications` document added for the event creator. -/
def creatorReminder (now : Timestamp) (eid : String) (e : EventData)
    (c : String) : GenNotification :=
  { recipientId := c
    recipientType := "eventCreator"
    title := "Event Starting Soon"
    message := "Your \"" ++ jsShow e.name ++ "\" event starts in less than 2 hours."
    type := "eventStartingSoon"
    status := "unread"
    createdAt := now
    metadata := reminderMetadata eid e
    actionLink := "event/" ++ eid }

/-- The `user_notifications` document added for one attendee. -/
def attendeeReminder (now : Timestamp) (eid : String) (e : EventData)
    (a : String) : GenNotification :=
  { recipientId := a
    recipientType := "user"
    title := "Event Starting Soon"
    message := "\"" ++ jsShow e.name ++ "\" starts in less than 2 hours."
    type := "eventStartingSoon"
    status := "unread"
    createdAt := now
    metadata := reminderMetadata eid e
    actionLink := "event/" ++ eid }

/-- The creations issued for one unflagged selected event: one creator
document when `creatorId` is truthy, then one attendee document per entry of
`attendees`, in list order. -/
def eventNotifications (now : Timestamp) (eid : String) (e : EventData) :
    List (String × GenNotification) :=
  (if jsFalsyStr e.creatorId then []
   else [("creator_notifications", creatorReminder now eid e (jsOrEmpty e.creatorId))]) ++
  (e.attendees.getD []).map fun a => ("user_notifications", attendeeReminder now eid e a)

/-- `t.seconds + s` with the nanosecond part carried over — how the window
bounds are built. -/
def addSeconds (t : Timestamp) (s : Int) : Timestamp :=
  { seconds := t.seconds + s, nanoseconds := t.nanoseconds }

/-- Whether an event's `startTime` lies in the closed window
`[now + 3600 s, now + 7200 s]`; events without the field are not matched by
the range query. -/
def inWindow (now : Timestamp) (e : EventData) : Bool :=
  match e.startTime with
  | none => false
  | some t => tsLe (addSeconds now 3600) t && tsLe t (addSeconds now 7200)

/-- The events query of a generator run at time `now`. -/
def selectEvents (now : Timestamp) (events : List (String × EventData)) :
    List (String × EventData) :=
  events.filter fun ev => inWindow now ev.2

/-- Concatenation of the images of all list elements, in order. -/
def flatMapL (f : α → List β) : List α → List β
  | [] => []
  | a :: l => f a ++ flatMapL f l

/-- Body of `sendEventReminders` (inside the try).  All `.add` calls are
issued inside the loop before `batch.commit()`, so `created` lists them even
when the batch or a creation fails; the flag batch is all-or-nothing. -/
def sendEventRemindersBody (w : World) (now : Timestamp) : Outcome :=
  if w.eventsQueryFails then { error := some .store }
  else
    let selected := selectEvents now w.events
    if selected.isEmpty then {}
    else
      let toFlag := selected.filter fun ev => !(jsTruthyBool ev.2.reminderSent)
      let notifs := flatMapL (fun ev => eventNotifications now ev.1 ev.2) toFlag
      { created := notifs
        flagWrites := if w.batchCommitFails then [] else toFlag.map Prod.fst
        error := if w.batchCommitFails || w.createFails then some .store else none }

/-- `sendEventReminders`: the body wrapped in the catch-all. -/
def sendEventReminders (w : World) (now : Timestamp) : Outcome :=
  { sendEventRemindersBody w now with error := none }

/-- Applying a run's flag writes to the events store: each written event gets
`reminderSent := true` (the only value any batch update ever writes). -/
def applyFlagWrites (events : List (String × EventData)) (flags : List String) :
    List (String × EventData) :=
  events.map fun ev =>
    if flags.contains ev.1 then (ev.1, { ev.2 with reminderSent := some true }) else ev

/-- Whether a metadata map carries `eventId` equal to the given string. -/
def isEventIdStr (md : List (String × Value)) (eid : String) : Bool :=
  match md.lookup "eventId" with
  | some (.vstr s) => s = eid
  | _ => false

/-- The creations of an outcome that belong to event `eid`. -/
def createdForEvent (o : Outcome) (eid : String) :
    List (String × GenNotification) :=
  o.created.filter fun cn => isEventIdStr cn.2.metadata eid

/-! ### Lemmas about the JS-object string map -/

theorem lookupKey_setKey_self (m : List (String × String)) (k v : String) :
    lookupKey (setKey m k v) k = some v := by
  induction m with
  | nil => simp [setKey, lookupKey]
  | cons kv rest ih =>
    obtain ⟨k', v'⟩ := kv
    by_cases h : k' = k
    · subst h
      simp [setKey, lookupKey]
    · simp [setKey, lookupKey, h, ih]

theorem lookupKey_setKey_ne (m : List (String × String)) (k v k' : String)
    (h : k' ≠ k) : lookupKey (setKey m k v) k' = lookupKey m k' := by
  induction m with
  | nil => simp [setKey, lookupKey, Ne.symm h]
  | cons kv rest ih =>
    obtain ⟨a, b⟩ := kv
    by_cases ha : a = k
    · subst ha
      simp [setKey, lookupKey, Ne.symm h]
    · by_cases ha' : a = k'
      · subst ha'
        simp [setKey, lookupKey, ha]
      · simp [setKey, lookupKey, ha, ha', ih]

theorem lookupKey_foldl_applyMeta_of_forall_ne (l : List (String × Value))
    (k : String) (h : ∀ kv ∈ l, kv.1 ≠ k) :
    ∀ acc, lookupKey (l.foldl applyMeta acc) k = lookupKey acc k := by
  induction l with
  | nil => intro acc; rfl
  | cons kv rest ih =>
    intro acc
    have hk : kv.1 ≠ k := h kv (List.mem_cons_self _ _)
    have hr : ∀ kv' ∈ rest, kv'.1 ≠ k := fun kv' hm => h kv' (List.mem_cons_of_mem _ hm)
    calc lookupKey ((kv :: rest).foldl applyMeta acc) k
        = lookupKey (applyMeta acc kv) k := ih hr (applyMeta acc kv)
      _ = lookupKey acc k := lookupKey_setKey_ne acc kv.1 (stringifyJS kv.2) k (Ne.symm hk)

theorem lookupKey_foldl_applyMeta_of_mem (l : List (String × Value))
    (k : String) (v : Value) (hnd : (l.map Prod.fst).Nodup) (hmem : (k, v) ∈ l) :
    ∀ acc, lookupKey (l.foldl applyMeta acc) k = some (stringifyJS v) := by
  induction l with
  | nil => cases hmem
  | cons kv rest ih =>
    intro acc
    rw [List.map_cons, List.nodup_cons] at hnd
    rcases List.mem_cons.mp hmem with heq | htail
    · subst heq
      have hr : ∀ kv' ∈ rest, kv'.1 ≠ k := by
        intro kv' hm hk
        have hin : kv'.1 ∈ rest.map Prod.fst := List.mem_map_of_mem Prod.fst hm
        rw [hk] at hin
        exact hnd.1 hin
      calc lookupKey ((⟨k, v⟩ :: rest).foldl applyMeta acc) k
          = lookupKey (applyMeta acc (k, v)) k :=
            lookupKey_foldl_applyMeta_of_forall_ne rest k hr _
        _ = some (stringifyJS v) := lookupKey_setKey_self acc k (stringifyJS v)
    · exact ih hnd.2 htail (applyMeta acc kv)

theorem lookupKey_base_of_ne (nid ty al k : String)
    (h1 : k ≠ "notificationId") (h2 : k ≠ "type")
    (h3 : k ≠ "click_action") (h4 : k ≠ "actionLink") :
    lookupKey [("notificationId", nid), ("type", ty),
      ("click_action", "FLUTTER_NOTIFICATION_CLICK"), ("actionLink", al)] k = none := by
  simp [lookupKey, Ne.symm h1, Ne.symm h2, Ne.symm h3, Ne.symm h4]

/-- The filtered metadata never carries the two stripped keys. -/
theorem stripped_not_mem (md : List (String × Value)) (k : String)
    (hk : k = "fullDescription" ∨ k = "fullContent") :
    ∀ kv ∈ md.filter fun kv =>
      !(kv.1 = "fullDescription") && !(kv.1 = "fullContent"), kv.1 ≠ k := by
  intro kv hm
  rw [List.mem_filter] at hm
  have h2 := hm.2
  simp only [Bool.and_eq_true, Bool.not_eq_true', decide_eq_false_iff_not] at h2
  rcases hk with h | h
  · subst h
    exact h2.1
  · subst h
    exact h2.2

/-- C7 (helper): what `buildMessageData` holds at a surviving metadata key. -/
theorem buildMessageData_lookup_meta (nid : String) (n : NotificationData)
    (md : List (String × Value)) (hmd : n.metadata = some md)
    (hnd : (md.map Prod.fst).Nodup) (k : String) (v : Value)
    (hmem : (k, v) ∈ md) (h1 : k ≠ "fullDescription") (h2 : k ≠ "fullContent") :
    lookupKey (buildMessageData nid n) k = some (stringifyJS v) := by
  have hfm : (k, v) ∈ md.filter fun kv =>
      !(kv.1 = "fullDescription") && !(kv.1 = "fullContent") := by
    rw [List.mem_filter]
    exact ⟨hmem, by simp [h1, h2]⟩
  have hfnd : ((md.filter fun kv =>
      !(kv.1 = "fullDescription") && !(kv.1 = "fullContent")).map Prod.fst).Nodup :=
    hnd.sublist ((List.filter_sublist md).map Prod.fst)
  unfold buildMessageData
  rw [hmd]
  exact lookupKey_foldl_applyMeta_of_mem _ k v hfnd hfm _

/-! ### Claim C7: metadata flattening -/

/-- C7: for every dispatched notification with metadata, the outbound data
payload contains every metadata key except `fullDescription` and
`fullContent`, each value converted to a string (`String(v)` for primitives,
`JSON.stringify(v)` for objects), and the payload never contains a
`fullDescription` or `fullContent` key. -/
theorem dispatch_metadata_flattening (nid : String) (n : NotificationData)
    (md : List (String × Value)) (hmd : n.metadata = some md)
    (hnd : (md.map Prod.fst).Nodup) :
    (∀ k v, (k, v) ∈ md → k ≠ "fullDescription" → k ≠ "fullContent" →
      lookupKey (buildMessageData nid n) k = some (stringifyJS v)) ∧
    lookupKey (buildMessageData nid n) "fullDescription" = none ∧
    lookupKey (buildMessageData nid n) "fullContent" = none := by
  refine ⟨fun k v hmem h1 h2 =>
    buildMessageData_lookup_meta nid n md hmd hnd k v hmem h1 h2, ?_, ?_⟩
  · unfold buildMessageData
    rw [hmd]
    rw [lookupKey_foldl_applyMeta_of_forall_ne _ _
      (stripped_not_mem md "fullDescription" (Or.inl rfl))]
    exact lookupKey_base_of_ne _ _ _ _ (by decide) (by decide) (by decide) (by decide)
  · unfold buildMessageData
    rw [hmd]
    rw [lookupKey_foldl_applyMeta_of_forall_ne _ _
      (stripped_not_mem md "fullContent" (Or.inr rfl))]
    exact lookupKey_base_of_ne _ _ _ _ (by decide) (by decide) (by decide) (by decide)

/-- A concrete notification carrying metadata with a primitive field, a
stripped field and an object field. -/
def exampleNotifC7 : NotificationData :=
  { recipientId := some "u1"
    type := some "t"
    metadata := some [("a", .vnum 1), ("fullDescription", .vstr "big"),
                      ("b", .vobj [("x", .vnum 1)])] }

/-- Witness for C7 at `exampleNotifC7`. -/
theorem dispatch_metadata_flattening_witness :
    lookupKey (buildMessageData "n1" exampleNotifC7) "a" =
      some (stringifyJS (.vnum 1)) ∧
    lookupKey (buildMessageData "n1" exampleNotifC7) "b" =
      some (stringifyJS (.vobj [("x", .vnum 1)])) ∧
    lookupKey (buildMessageData "n1" exampleNotifC7) "fullDescription" = none ∧
    lookupKey (buildMessageData "n1" exampleNotifC7) "fullContent" = none := by
  have h := dispatch_metadata_flattening "n1" exampleNotifC7
    [("a", .vnum 1), ("fullDescription", .vstr "big"), ("b", .vobj [("x", .vnum 1)])]
    rfl (by simp)
  refine ⟨h.1 "a" (.vnum 1) ?_ (by decide) (by decide),
          h.1 "b" (.vobj [("x", .vnum 1)]) ?_ (by decide) (by decide),
          h.2.1, h.2.2⟩
  · exact List.mem_cons_self _ _
  · exact List.mem_cons_of_mem _ (List.mem_cons_of_mem _ (List.mem_cons_self _ _))

/-! ### Claim C9: metadata can shadow the fixed payload fields -/

/-- C9: metadata entries are folded into the data payload after the four
fixed fields, so a metadata key named `notificationId`, `type`,
`click_action` or `actionLink` overwrites the fixed field: the payload ends
up holding the stringified metadata value at that key. -/
theorem dispatch_metadata_overrides_fixed (nid : String) (n : NotificationData)
    (md : List (String × Value)) (hmd : n.metadata = some md)
    (hnd : (md.map Prod.fst).Nodup) (k : String) (v : Value)
    (hk : k = "notificationId" ∨ k = "type" ∨ k = "click_action" ∨ k = "actionLink")
    (hmem : (k, v) ∈ md) :
    lookupKey (buildMessageData nid n) k = some (stringifyJS v) := by
  have h1 : k ≠ "fullDescription" := by
    rcases hk with h | h | h | h <;> subst h <;> decide
  have h2 : k ≠ "fullContent" := by
    rcases hk with h | h | h | h <;> subst h <;> decide
  exact buildMessageData_lookup_meta nid n md hmd hnd k v hmem h1 h2

/-- A notification whose stored `type` is shadowed by a metadata `type`. -/
def exampleNotifC9 : NotificationData :=
  { recipientId := some "u1"
    type := some "storedType"
    actionLink := some "storedLink"
    metadata := some [("type", .vstr "metaType")] }

/-- Witness for C9: the metadata `type` wins over the fixed `type` field. -/
theorem dispatch_metadata_overrides_fixed_witness :
    lookupKey (buildMessageData "n1" exampleNotifC9) "type" =
      some (stringifyJS (.vstr "metaType")) :=
  dispatch_metadata_overrides_fixed "n1" exampleNotifC9 [("type", .vstr "metaType")]
    rfl (by simp) "type" (.vstr "metaType") (Or.inr (Or.inl rfl))
    (List.mem_cons_self _ _)

/-! ### Claim C2: when the dispatcher attempts a push -/

/-- A token store in which every user id (including the empty string) has a
non-empty token. -/
def allTokensWorld : World :=
  { tokens := fun _ => some { token := some "tok" }
    notifStore := fun _ => []
    events := [] }

/-- A notification whose `recipientId` is present but empty. -/
def emptyRecipientNotif : NotificationData :=
  { recipientId := some "" }

/-- C2 counterexample: for a record whose `recipientId` is set to `""` (a
set field) while a non-empty token exists for that recipient, the claimed
equivalence `push attempted ↔ recipientId set ∧ non-empty token exists`
fails: the dispatcher's falsiness check skips the record and no send
occurs. -/
theorem dispatch_push_iff_counterexample :
    ¬ (((sendNotificationToUser allTokensWorld "user_notifications" "n1"
          emptyRecipientNotif).sends.length = 1) ↔
        (emptyRecipientNotif.recipientId.isSome = true ∧
         ∃ d, allTokensWorld.tokens (jsOrEmpty emptyRecipientNotif.recipientId) = some d ∧
           ∃ t, d.token = some t ∧ t ≠ "")) := by
  intro h
  have h1 := h.mpr ⟨rfl, ⟨{ token := some "tok" }, rfl, "tok", rfl, by decide⟩⟩
  exact absurd h1 (by decide)

/-- C2 amended: for a creation in one of the two notification collections
 (and a working token store), the dispatcher attempts exactly one send if and
only if `recipientId` is set to a non-empty string and a non-empty token
exists for that recipient. -/
theorem dispatch_push_iff (w : World) (c nid : String) (n : NotificationData)
    (hc : c = "user_notifications" ∨ c = "creator_notifications")
    (hget : w.tokenGetFails = false) :
    (sendNotificationToUser w c nid n).sends.length = 1 ↔
      ∃ r, n.recipientId = some r ∧ r ≠ "" ∧
        ∃ d, w.tokens r = some d ∧ ∃ t, d.token = some t ∧ t ≠ "" := by
  have hcol : (!(c = "user_notifications" || c = "creator_notifications")) = false := by
    rcases hc with rfl | rfl <;> decide
  unfold sendNotificationToUser sendNotificationToUserBody
  rw [hcol]
  cases hR : n.recipientId with
  | none => simp [jsFalsyStr, hR]
  | some r =>
    by_cases hr : r = ""
    · subst hr
      simp [jsFalsyStr, hR]
    · rw [hget]
      have hj : jsOrEmpty (some r) = r := rfl
      rw [hj]
      cases hT : w.tokens r with
      | none => simp [jsFalsyStr, hr, hT]
      | some doc =>
        cases hDT : doc.token with
        | none => simp [jsFalsyStr, hr, hT, hDT]
        | some t =>
          by_cases ht : t = ""
          · subst ht
            simp [jsFalsyStr, hr, hT, hDT]
          · cases hS : w.sendFails <;>
              simp [jsFalsyStr, hr, hT, hDT, ht, hS]

/-- A qualifying notification for the C2 witness. -/
def exampleNotifC2 : NotificationData :=
  { recipientId := some "u1", title := some "hello" }

/-- Witness for the amended C2 at a concrete world and record. -/
theorem dispatch_push_iff_witness :
    (sendNotificationToUser allTokensWorld "user_notifications" "n1"
        exampleNotifC2).sends.length = 1 ↔
      ∃ r, exampleNotifC2.recipientId = some r ∧ r ≠ "" ∧
        ∃ d, allTokensWorld.tokens r = some d ∧ ∃ t, d.token = some t ∧ t ≠ "" :=
  dispatch_push_iff allTokensWorld "user_notifications" "n1" exampleNotifC2
    (Or.inl rfl) rfl

/-! ### Claim C3: when the badge synchronizer sends -/

/-- A before-snapshot with `status = "unread"`. -/
def beforeUnreadNoRecipient : NotificationData :=
  { status := some "unread" }

/-- An after-snapshot marking the record read but carrying no
`recipientId`. -/
def afterReadNoRecipient : NotificationData :=
  { status := some "read" }

/-- C3 counterexample: on the transition `unread → read` of a record with no
`recipientId`, the handler sends nothing, so `badge push sent ↔ (before
unread ∧ after not unread)` fails even with every token available. -/
theorem badge_send_iff_counterexample :
    ¬ (((updateBadgeCount allTokensWorld "user_notifications" "n1"
          beforeUnreadNoRecipient afterReadNoRecipient).sends.length = 1) ↔
        (beforeUnreadNoRecipient.status = some "unread" ∧
         afterReadNoRecipient.status ≠ some "unread")) := by
  intro h
  have h1 := h.mpr ⟨rfl, by decide⟩
  exact absurd h1 (by decide)

/-- C3 amended: for an update in one of the two notification collections
 (and a working store), a badge push is sent iff `before.status == "unread"`,
`after.status != "unread"`, the record's `recipientId` is a non-empty
string and a non-empty token exists for it; in every other case — in
particular on any other status transition or field change — zero sends
occur (the handler never sends more than once). -/
theorem badge_send_iff (w : World) (c nid : String)
    (before after : NotificationData)
    (hc : c = "user_notifications" ∨ c = "creator_notifications")
    (hq : w.unreadQueryFails = false) (hget : w.tokenGetFails = false) :
    ((updateBadgeCount w c nid before after).sends.length = 1 ↔
      (before.status = some "unread" ∧ after.status ≠ some "unread" ∧
       ∃ r, after.recipientId = some r ∧ r ≠ "" ∧
         ∃ d, w.tokens r = some d ∧ ∃ t, d.token = some t ∧ t ≠ "")) ∧
    (updateBadgeCount w c nid before after).sends.length ≤ 1 := by
  have hcol : (!(c = "user_notifications" || c = "creator_notifications")) = false := by
    rcases hc with rfl | rfl <;> decide
  unfold updateBadgeCount updateBadgeCountBody
  rw [hcol, hq, hget]
  by_cases h1 : before.status = some "unread"
  · by_cases h2 : after.status = some "unread"
    · simp [h1, h2]
    · cases hR : after.recipientId with
      | none => simp [h1, h2, jsFalsyStr, hR]
      | some r =>
        by_cases hr : r = ""
        · subst hr
          simp [h1, h2, jsFalsyStr]
        · have hj : jsOrEmpty (some r) = r := rfl
          rw [hj]
          cases hT : w.tokens r with
          | none => simp [h1, h2, jsFalsyStr, hr, hT]
          | some doc =>
            cases hDT : doc.token with
            | none => simp [h1, h2, jsFalsyStr, hr, hT, hDT]
            | some t =>
              by_cases ht : t = ""
              · subst ht
                simp [h1, h2, jsFalsyStr, hr, hT, hDT]
              · cases hS : w.sendFails <;>
                  simp [h1, h2, jsFalsyStr, hr, hT, hDT, ht, hS]
  · simp [h1]

/-- A qualifying after-snapshot for the C3 witness. -/
def afterReadC3 : NotificationData :=
  { status := some "read", recipientId := some "u1" }

/-- A qualifying before-snapshot for the C3 witness. -/
def beforeUnreadC3 : NotificationData :=
  { status := some "unread", recipientId := some "u1" }

/-- Witness for the amended C3 at a concrete world and snapshots. -/
theorem badge_send_iff_witness :
    (((updateBadgeCount allTokensWorld "user_notifications" "n1"
        beforeUnreadC3 afterReadC3).sends.length = 1 ↔
      (beforeUnreadC3.status = some "unread" ∧ afterReadC3.status ≠ some "unread" ∧
       ∃ r, afterReadC3.recipientId = some r ∧ r ≠ "" ∧
         ∃ d, allTokensWorld.tokens r = some d ∧
           ∃ t, d.token = some t ∧ t ≠ "")) ∧
    (updateBadgeCount allTokensWorld "user_notifications" "n1"
        beforeUnreadC3 afterReadC3).sends.length ≤ 1) :=
  badge_send_iff allTokensWorld "user_notifications" "n1"
    beforeUnreadC3 afterReadC3 (Or.inl rfl) rfl rfl

/-! ### Claim C4: the badge value is the live unread count -/

/-- C4: every message the badge synchronizer sends carries, as its badge
value, the count at query time of records in the updated record's own
collection with matching `recipientId` and `status == "unread"`. -/
theorem badge_value_eq_live_unread_count (w : World) (c nid : String)
    (before after : NotificationData) (msg : PushMessage)
    (hmem : msg ∈ (updateBadgeCount w c nid before after).sends) :
    msg.apnsBadge =
      some (countUnread w.notifStore c (jsOrEmpty after.recipientId)) := by
  unfold updateBadgeCount updateBadgeCountBody at hmem
  by_cases hcol : (!(c = "user_notifications" || c = "creator_notifications")) = true
  · rw [hcol] at hmem
    simp at hmem
  · rw [Bool.not_eq_true] at hcol
    rw [hcol] at hmem
    by_cases h1 : before.status = some "unread"
    · by_cases h2 : after.status = some "unread"
      · simp [h1, h2] at hmem
      · cases hR : after.recipientId with
        | none => simp [hR, jsFalsyStr] at hmem
        | some r =>
          rw [hR] at hmem
          by_cases hr : r = ""
          · subst hr
            simp [jsFalsyStr, h1, h2] at hmem
          · have hj : jsOrEmpty (some r) = r := rfl
            cases hQ : w.unreadQueryFails with
            | true => simp [h1, h2, jsFalsyStr, hr, hQ, hj] at hmem
            | false =>
              cases hG : w.tokenGetFails with
              | true => simp [h1, h2, jsFalsyStr, hr, hQ, hG, hj] at hmem
              | false =>
                cases hT : w.tokens r with
                | none => simp [h1, h2, jsFalsyStr, hr, hQ, hG, hj, hT] at hmem
                | some doc =>
                  cases hDT : doc.token with
                  | none => simp [h1, h2, jsFalsyStr, hr, hQ, hG, hj, hT, hDT] at hmem
                  | some t =>
                    by_cases ht : t = ""
                    · subst ht
                      simp [h1, h2, jsFalsyStr, hr, hQ, hG, hj, hT, hDT] at hmem
                    · rw [hj]
                      cases hS : w.sendFails <;>
                        simp [h1, h2, jsFalsyStr, hr, hQ, hG, hj, hT, hDT, ht, hS] at hmem <;>
                        rw [hmem]
    · simp [h1] at hmem

/-- A world whose `user_notifications` collection holds two unread records
for `u1`, one read record for `u1`, and one unread record for `u2`. -/
def unreadStoreWorld : World :=
  { tokens := fun _ => some { token := some "tok" }
    notifStore := fun col =>
      if col = "user_notifications" then
        [{ recipientId := some "u1", status := some "unread" },
         { recipientId := some "u1", status := some "read" },
         { recipientId := some "u1", status := some "unread" },
         { recipientId := some "u2", status := some "unread" }]
      else []
    events := [] }

/-- The badge message `unreadStoreWorld` produces for the witness update. -/
def exampleBadgeMsg : PushMessage :=
  { token := "tok", apnsBadge := some 2, data := [("updateBadge", "true")] }

/-- Witness for C4: the badge sent for `u1` equals the live unread count 2. -/
theorem badge_value_eq_live_unread_count_witness :
    exampleBadgeMsg.apnsBadge =
      some (countUnread unreadStoreWorld.notifStore "user_notifications"
        (jsOrEmpty afterReadC3.recipientId)) :=
  badge_value_eq_live_unread_count unreadStoreWorld "user_notifications" "n1"
    beforeUnreadC3 afterReadC3 exampleBadgeMsg (by decide)

/-! ### Claim C6: no failure escapes a top-level handler -/

/-- C6: whatever the environment does — token lookups, queries, the batch
commit, document creation or the push transport may all fail — every
exported handler swallows the body's error and returns normally. -/
theorem handlers_never_propagate (w : World) (c nid : String)
    (n before after : NotificationData) (now : Timestamp) :
    (sendNotificationToUser w c nid n).error = none ∧
    (updateBadgeCount w c nid before after).error = none ∧
    (sendEventReminders w now).error = none :=
  ⟨rfl, rfl, rfl⟩

/-- The catch-all is not vacuous: with a failing transport the dispatcher
body does throw, and the exported handler still returns without error. -/
theorem dispatcher_body_can_fail :
    (sendNotificationToUserBody { allTokensWorld with sendFails := true }
        "user_notifications" "n1" exampleNotifC2).error = some .transport ∧
    (sendNotificationToUser { allTokensWorld with sendFails := true }
        "user_notifications" "n1" exampleNotifC2).error = none := by
  exact ⟨by decide, rfl⟩

/-! ### Generator lemmas -/

/-- A list with a member is not empty. -/
theorem isEmpty_false_of_mem {α : Type} {l : List α} {a : α} (h : a ∈ l) :
    l.isEmpty = false := by
  cases l with
  | nil => cases h
  | cons hd tl => rfl

/-- In a list whose keys are distinct, a key determines its value. -/
theorem keys_nodup_eq {β : Type} {l : List (String × β)}
    (hnd : (l.map Prod.fst).Nodup) {k : String} {a b : β}
    (ha : (k, a) ∈ l) (hb : (k, b) ∈ l) : a = b := by
  induction l with
  | nil => cases ha
  | cons hd tl ih =>
    rw [List.map_cons, List.nodup_cons] at hnd
    rcases List.mem_cons.mp ha with h1 | h1 <;>
      rcases List.mem_cons.mp hb with h2 | h2
    · exact (Prod.ext_iff.mp (h1.trans h2.symm)).2
    · exfalso
      have hin : (k, b).1 ∈ tl.map Prod.fst := List.mem_map_of_mem Prod.fst h2
      rw [← h1] at hnd
      exact hnd.1 hin
    · exfalso
      have hin : (k, a).1 ∈ tl.map Prod.fst := List.mem_map_of_mem Prod.fst h1
      rw [← h2] at hnd
      exact hnd.1 hin
    · exact ih hnd.2 h1 h2

theorem flatMapL_nil_of_forall {α β : Type} (g : α → List β) (l : List α)
    (h : ∀ a ∈ l, g a = []) : flatMapL g l = [] := by
  induction l with
  | nil => rfl
  | cons hd tl ih =>
    rw [flatMapL, h hd (List.mem_cons_self _ _), List.nil_append]
    exact ih fun a hm => h a (List.mem_cons_of_mem _ hm)

/-- If `eid` occurs as a key exactly once (keys are distinct) and `g`
vanishes on every other key, the concatenated image is `g` at that entry. -/
theorem flatMapL_eq_of_unique_key {β γ : Type} (g : String × β → List γ)
    (l : List (String × β)) (eid : String) (e : β)
    (hnd : (l.map Prod.fst).Nodup) (hmem : (eid, e) ∈ l)
    (hg0 : ∀ ev ∈ l, ev.1 ≠ eid → g ev = []) :
    flatMapL g l = g (eid, e) := by
  induction l with
  | nil => cases hmem
  | cons hd tl ih =>
    rw [List.map_cons, List.nodup_cons] at hnd
    rcases List.mem_cons.mp hmem with heq | htl
    · rw [← heq] at hnd ⊢
      have htl0 : flatMapL g tl = [] := by
        apply flatMapL_nil_of_forall
        intro a hm
        apply hg0 a (List.mem_cons_of_mem _ hm)
        intro hk
        have hin : a.1 ∈ tl.map Prod.fst := List.mem_map_of_mem Prod.fst hm
        rw [hk] at hin
        exact hnd.1 hin
      rw [flatMapL, htl0, List.append_nil]
    · have hne : hd.1 ≠ eid := by
        intro hk
        apply hnd.1
        rw [hk]
        exact List.mem_map_of_mem Prod.fst htl
      rw [flatMapL, hg0 hd (List.mem_cons_self _ _) hne, List.nil_append]
      exact ih hnd.2 htl
        fun ev hm => hg0 ev (List.mem_cons_of_mem _ hm)

theorem filter_flatMapL {α β : Type} (p : β → Bool) (g : α → List β)
    (l : List α) :
    (flatMapL g l).filter p = flatMapL (fun a => (g a).filter p) l := by
  induction l with
  | nil => rfl
  | cons hd tl ih => rw [flatMapL, flatMapL, List.filter_append, ih]

/-- Every reminder generated for an event carries that event's metadata. -/
theorem metadata_of_eventNotifications (now : Timestamp) (eid : String)
    (e : EventData) :
    ∀ cn ∈ eventNotifications now eid e, cn.2.metadata = reminderMetadata eid e := by
  intro cn hm
  unfold eventNotifications at hm
  rw [List.mem_append] at hm
  rcases hm with h | h
  · by_cases hc : jsFalsyStr e.creatorId = true
    · rw [if_pos hc] at h
      cases h
    · rw [if_neg hc] at h
      rw [List.mem_singleton.mp h]
      rfl
  · rw [List.mem_map] at h
    obtain ⟨a, _, rfl⟩ := h
    rfl

/-- The `eventId` test evaluated on an event's reminder metadata. -/
theorem isEventIdStr_reminderMetadata (eid' : String) (e' : EventData)
    (eid : String) :
    isEventIdStr (reminderMetadata eid' e') eid = decide (eid' = eid) := by
  simp [isEventIdStr, reminderMetadata, List.lookup]

theorem filter_eventNotifications_self (now : Timestamp) (eid : String)
    (e : EventData) :
    (eventNotifications now eid e).filter
        (fun cn => isEventIdStr cn.2.metadata eid) = eventNotifications now eid e := by
  rw [List.filter_eq_self]
  intro cn hm
  rw [metadata_of_eventNotifications now eid e cn hm, isEventIdStr_reminderMetadata]
  simp

theorem filter_eventNotifications_ne (now : Timestamp) (eid' : String)
    (e' : EventData) (eid : String) (h : eid' ≠ eid) :
    (eventNotifications now eid' e').filter
        (fun cn => isEventIdStr cn.2.metadata eid) = [] := by
  rw [List.filter_eq_nil_iff]
  intro cn hm
  rw [metadata_of_eventNotifications now eid' e' cn hm, isEventIdStr_reminderMetadata]
  simp [h]

/-- Unfolding of a run that finds at least one event and no query failure:
its creations and (when the batch commits) its flag writes. -/
theorem run_components (w : World) (now : Timestamp)
    (hq : w.eventsQueryFails = false)
    (hne : (selectEvents now w.events).isEmpty = false) :
    (sendEventReminders w now).created =
      flatMapL (fun ev => eventNotifications now ev.1 ev.2)
        ((selectEvents now w.events).filter
          fun ev => !(jsTruthyBool ev.2.reminderSent)) ∧
    (sendEventReminders w now).flagWrites =
      (if w.batchCommitFails then [] else
        ((selectEvents now w.events).filter
          fun ev => !(jsTruthyBool ev.2.reminderSent)).map Prod.fst) := by
  unfold sendEventReminders sendEventRemindersBody
  simp only [hq, hne, Bool.false_eq_true, if_false]
  constructor <;> trivial

/-- The entries of the run's flag-write worklist. -/
theorem mem_toFlag_iff (w : World) (now : Timestamp) (ev : String × EventData) :
    ev ∈ ((selectEvents now w.events).filter
        fun ev => !(jsTruthyBool ev.2.reminderSent)) ↔
      ev ∈ w.events ∧ inWindow now ev.2 = true ∧
        jsTruthyBool ev.2.reminderSent = false := by
  rw [List.mem_filter]
  unfold selectEvents
  rw [List.mem_filter]
  simp [and_assoc]

/-- The flag-write worklist inherits distinct keys from the store. -/
theorem toFlag_keys_nodup (w : World) (now : Timestamp)
    (hnd : (w.events.map Prod.fst).Nodup) :
    ((((selectEvents now w.events).filter
        fun ev => !(jsTruthyBool ev.2.reminderSent)).map Prod.fst)).Nodup := by
  apply hnd.sublist
  apply List.Sublist.map
  exact (List.filter_sublist _).trans (List.filter_sublist _)

/-- What a run creates for one unflagged in-window event: exactly its
per-event fan-out. -/
theorem createdForEvent_run (w : World) (now : Timestamp) (eid : String)
    (e : EventData) (hmem : (eid, e) ∈ w.events)
    (hnd : (w.events.map Prod.fst).Nodup) (hwin : inWindow now e = true)
    (hun : jsTruthyBool e.reminderSent = false)
    (hq : w.eventsQueryFails = false) :
    createdForEvent (sendEventReminders w now) eid = eventNotifications now eid e := by
  have hsel : (eid, e) ∈ selectEvents now w.events := by
    unfold selectEvents
    rw [List.mem_filter]
    exact ⟨hmem, hwin⟩
  have htf : (eid, e) ∈ ((selectEvents now w.events).filter
      fun ev => !(jsTruthyBool ev.2.reminderSent)) := by
    rw [mem_toFlag_iff]
    exact ⟨hmem, hwin, hun⟩
  have hne : (selectEvents now w.events).isEmpty = false :=
    isEmpty_false_of_mem hsel
  unfold createdForEvent
  rw [(run_components w now hq hne).1, filter_flatMapL]
  rw [flatMapL_eq_of_unique_key _ _ eid e (toFlag_keys_nodup w now hnd) htf]
  · exact filter_eventNotifications_self now eid e
  · intro ev hm hk
    obtain ⟨k, e'⟩ := ev
    exact filter_eventNotifications_ne now k e' eid hk

/-- The dispatcher performs no store mutation in any branch. -/
theorem dispatchBody_no_writes (w : World) (c nid : String)
    (n : NotificationData) :
    (sendNotificationToUserBody w c nid n).created = [] ∧
    (sendNotificationToUserBody w c nid n).flagWrites = [] := by
  unfold sendNotificationToUserBody
  constructor <;> (dsimp only) <;> (repeat' split) <;> rfl

/-- The badge handler performs no store mutation in any branch. -/
theorem badgeBody_no_writes (w : World) (c nid : String)
    (before after : NotificationData) :
    (updateBadgeCountBody w c nid before after).created = [] ∧
    (updateBadgeCountBody w c nid before after).flagWrites = [] := by
  unfold updateBadgeCountBody
  constructor <;> (dsimp only) <;> (repeat' split) <;> rfl

/-- A member with multiplicity one: distinct keys give count one. -/
theorem count_one_of_nodup_mem (l : List String) (a : String)
    (hnd : l.Nodup) (h : a ∈ l) : l.count a = 1 := by
  induction l with
  | nil => cases h
  | cons b tl ih =>
    rw [List.nodup_cons] at hnd
    rcases List.mem_cons.mp h with rfl | htl
    · rw [List.count_cons_self]
      have h0 : tl.count a = 0 := by
        rw [List.count_eq_zero]
        exact hnd.1
      rw [h0]
    · rw [List.count_cons_of_ne]
      · exact ih hnd.2 htl
      · intro hba
        exact hnd.1 (hba ▸ htl)

/-! ### Claim C8: the selection window -/

/-- C8: a run at time `now` selects exactly the stored events whose
`startTime` lies in the closed window from `now.seconds + 3600` to
`now.seconds + 7200` (nanoseconds carried over unchanged), both endpoints
included; events without a `startTime` are never selected. -/
theorem generator_window_selection (now : Timestamp)
    (events : List (String × EventData)) (ev : String × EventData) :
    ev ∈ selectEvents now events ↔
      ev ∈ events ∧ ∃ t, ev.2.startTime = some t ∧
        tsLe { seconds := now.seconds + 3600, nanoseconds := now.nanoseconds } t = true ∧
        tsLe t { seconds := now.seconds + 7200, nanoseconds := now.nanoseconds } = true := by
  unfold selectEvents
  rw [List.mem_filter]
  apply and_congr_right
  intro _
  unfold inWindow addSeconds
  cases h : ev.2.startTime with
  | none => simp
  | some t => simp [Bool.and_eq_true]

/-! ### Claim C1: flagged events are never re-notified, the flag never
reverts -/

/-- C1: for an event already flagged `reminderSent = true`, a generator run
creates no notification record for it and issues no flag write for it;
every flag write any run applies sets `reminderSent` to `true` (so a true
flag never reverts); and the other two handlers never write to the store at
all. -/
theorem reminder_idempotent_and_monotone (w : World) (now : Timestamp)
    (eid : String) (e : EventData) (hmem : (eid, e) ∈ w.events)
    (hnd : (w.events.map Prod.fst).Nodup)
    (hflag : e.reminderSent = some true) :
    createdForEvent (sendEventReminders w now) eid = [] ∧
    eid ∉ (sendEventReminders w now).flagWrites ∧
    (∀ flags ev, ev ∈ w.events → ev.2.reminderSent = some true →
      ∃ ev2, ev2 ∈ applyFlagWrites w.events flags ∧ ev2.1 = ev.1 ∧
        ev2.2.reminderSent = some true) ∧
    (∀ c nid n before after,
      (sendNotificationToUser w c nid n).created = [] ∧
      (sendNotificationToUser w c nid n).flagWrites = [] ∧
      (updateBadgeCount w c nid before after).created = [] ∧
      (updateBadgeCount w c nid before after).flagWrites = []) := by
  have hkey : ∀ ev ∈ ((selectEvents now w.events).filter
      fun ev => !(jsTruthyBool ev.2.reminderSent)), ev.1 ≠ eid := by
    intro ev hm hk
    rw [mem_toFlag_iff] at hm
    obtain ⟨hev, _, hun⟩ := hm
    obtain ⟨k, e'⟩ := ev
    cases hk
    have he : e' = e := keys_nodup_eq hnd hev hmem
    rw [he, hflag] at hun
    cases hun
  refine ⟨?_, ?_, ?_, ?_⟩
  · cases hq : w.eventsQueryFails with
    | true =>
      unfold createdForEvent sendEventReminders sendEventRemindersBody
      simp [hq]
    | false =>
      cases hE : (selectEvents now w.events).isEmpty with
      | true =>
        unfold createdForEvent sendEventReminders sendEventRemindersBody
        simp [hq, hE]
      | false =>
        unfold createdForEvent
        rw [(run_components w now hq hE).1, filter_flatMapL]
        apply flatMapL_nil_of_forall
        intro ev hm
        obtain ⟨k, e'⟩ := ev
        exact filter_eventNotifications_ne now k e' eid (hkey (k, e') hm)
  · cases hq : w.eventsQueryFails with
    | true =>
      unfold sendEventReminders sendEventRemindersBody
      simp [hq]
    | false =>
      cases hE : (selectEvents now w.events).isEmpty with
      | true =>
        unfold sendEventReminders sendEventRemindersBody
        simp [hq, hE]
      | false =>
        rw [(run_components w now hq hE).2]
        cases hb : w.batchCommitFails with
        | true => simp
        | false =>
          simp only [Bool.false_eq_true, if_false]
          intro hin
          rw [List.mem_map] at hin
          obtain ⟨ev, hm, hk⟩ := hin
          exact hkey ev hm hk
  · intro flags ev hmem' hflag'
    refine ⟨if flags.contains ev.1 then (ev.1, { ev.2 with reminderSent := some true })
        else ev, List.mem_map_of_mem _ hmem', ?_, ?_⟩
    · by_cases hcont : ev.1 ∈ flags <;> simp [hcont]
    · by_cases hcont : ev.1 ∈ flags <;> simp [hcont, hflag']
  · intro c nid n before after
    exact ⟨(dispatchBody_no_writes w c nid n).1,
           (dispatchBody_no_writes w c nid n).2,
           (badgeBody_no_writes w c nid before after).1,
           (badgeBody_no_writes w c nid before after).2⟩

/-- An in-window event already flagged `reminderSent = true`. -/
def flaggedEvent : EventData :=
  { creatorId := some "C1", name := some "Launch",
    startTime := some { seconds := 5400, nanoseconds := 0 },
    reminderSent := some true, attendees := some ["U1", "U2"] }

/-- A world holding only `flaggedEvent`. -/
def flaggedWorld : World :=
  { tokens := fun _ => some { token := some "tok" }
    notifStore := fun _ => []
    events := [("e1", flaggedEvent)] }

/-- Witness for C1 at `flaggedWorld`, run at epoch time zero. -/
theorem reminder_idempotent_and_monotone_witness :
    createdForEvent (sendEventReminders flaggedWorld { seconds := 0, nanoseconds := 0 }) "e1" = [] ∧
    "e1" ∉ (sendEventReminders flaggedWorld { seconds := 0, nanoseconds := 0 }).flagWrites ∧
    (∀ flags ev, ev ∈ flaggedWorld.events → ev.2.reminderSent = some true →
      ∃ ev2, ev2 ∈ applyFlagWrites flaggedWorld.events flags ∧ ev2.1 = ev.1 ∧
        ev2.2.reminderSent = some true) ∧
    (∀ c nid n before after,
      (sendNotificationToUser flaggedWorld c nid n).created = [] ∧
      (sendNotificationToUser flaggedWorld c nid n).flagWrites = [] ∧
      (updateBadgeCount flaggedWorld c nid before after).created = [] ∧
      (updateBadgeCount flaggedWorld c nid before after).flagWrites = []) :=
  reminder_idempotent_and_monotone flaggedWorld { seconds := 0, nanoseconds := 0 }
    "e1" flaggedEvent (by decide) (by decide) rfl

/-! ### Claim C5: fan-out for a one-creator, two-attendee event -/

/-- C5: an event selected by a run (startTime in the window), unflagged,
with creator `c` and attendees `[u1, u2]`, yields exactly three creations —
one creator-scoped record for `c` and one user-scoped record per attendee —
each with status `"unread"` and actionLink `event/<eventId>`, and exactly
one flag write for the event (the batch committing). -/
theorem reminder_fanout_three_records (w : World) (now : Timestamp)
    (eid : String) (e : EventData) (c u1 u2 : String)
    (hmem : (eid, e) ∈ w.events) (hnd : (w.events.map Prod.fst).Nodup)
    (hwin : inWindow now e = true) (hun : jsTruthyBool e.reminderSent = false)
    (hq : w.eventsQueryFails = false) (hb : w.batchCommitFails = false)
    (hcr : e.creatorId = some c) (hc : c ≠ "")
    (hatt : e.attendees = some [u1, u2]) :
    createdForEvent (sendEventReminders w now) eid =
      [("creator_notifications", creatorReminder now eid e c),
       ("user_notifications", attendeeReminder now eid e u1),
       ("user_notifications", attendeeReminder now eid e u2)] ∧
    (createdForEvent (sendEventReminders w now) eid).map
        (fun cn => cn.2.recipientId) = [c, u1, u2] ∧
    (∀ cn ∈ createdForEvent (sendEventReminders w now) eid,
      cn.2.status = "unread" ∧ cn.2.actionLink = "event/" ++ eid) ∧
    (sendEventReminders w now).flagWrites.count eid = 1 := by
  have hrun := createdForEvent_run w now eid e hmem hnd hwin hun hq
  have hlist : eventNotifications now eid e =
      [("creator_notifications", creatorReminder now eid e c),
       ("user_notifications", attendeeReminder now eid e u1),
       ("user_notifications", attendeeReminder now eid e u2)] := by
    unfold eventNotifications
    rw [hcr, hatt]
    have hf : jsFalsyStr (some c) = false := by
      simp [jsFalsyStr, hc]
    rw [hf]
    rfl
  have h1 : createdForEvent (sendEventReminders w now) eid =
      [("creator_notifications", creatorReminder now eid e c),
       ("user_notifications", attendeeReminder now eid e u1),
       ("user_notifications", attendeeReminder now eid e u2)] := hrun.trans hlist
  refine ⟨h1, ?_, ?_, ?_⟩
  · rw [h1]
    rfl
  · intro cn hm
    rw [h1] at hm
    rcases List.mem_cons.mp hm with rfl | hm
    · exact ⟨rfl, rfl⟩
    rcases List.mem_cons.mp hm with rfl | hm
    · exact ⟨rfl, rfl⟩
    rcases List.mem_cons.mp hm with rfl | hm
    · exact ⟨rfl, rfl⟩
    cases hm
  · have htf : (eid, e) ∈ ((selectEvents now w.events).filter
        fun ev => !(jsTruthyBool ev.2.reminderSent)) := by
      rw [mem_toFlag_iff]
      exact ⟨hmem, hwin, hun⟩
    have hne : (selectEvents now w.events).isEmpty = false := by
      apply isEmpty_false_of_mem
      unfold selectEvents
      rw [List.mem_filter]
      exact ⟨hmem, hwin⟩
    rw [(run_components w now hq hne).2, hb]
    simp only [Bool.false_eq_true, if_false]
    apply count_one_of_nodup_mem _ _ (toFlag_keys_nodup w now hnd)
    exact List.mem_map_of_mem Prod.fst htf

/-- The §8 scenario event: creator `C1`, attendees `U1`, `U2`, starting
ninety minutes after the run. -/
def launchEvent : EventData :=
  { creatorId := some "C1", name := some "Launch",
    startTime := some { seconds := 5400, nanoseconds := 0 },
    reminderSent := some false, attendees := some ["U1", "U2"] }

/-- A world holding only `launchEvent`. -/
def launchWorld : World :=
  { tokens := fun _ => some { token := some "tok" }
    notifStore := fun _ => []
    events := [("e1", launchEvent)] }

/-- Witness for C5 on the concrete §8 scenario. -/
theorem reminder_fanout_three_records_witness :
    createdForEvent (sendEventReminders launchWorld { seconds := 0, nanoseconds := 0 }) "e1" =
      [("creator_notifications",
        creatorReminder { seconds := 0, nanoseconds := 0 } "e1" launchEvent "C1"),
       ("user_notifications",
        attendeeReminder { seconds := 0, nanoseconds := 0 } "e1" launchEvent "U1"),
       ("user_notifications",
        attendeeReminder { seconds := 0, nanoseconds := 0 } "e1" launchEvent "U2")] ∧
    (createdForEvent (sendEventReminders launchWorld
        { seconds := 0, nanoseconds := 0 }) "e1").map
      (fun cn => cn.2.recipientId) = ["C1", "U1", "U2"] ∧
    (∀ cn ∈ createdForEvent (sendEventReminders launchWorld
        { seconds := 0, nanoseconds := 0 }) "e1",
      cn.2.status = "unread" ∧ cn.2.actionLink = "event/" ++ "e1") ∧
    (sendEventReminders launchWorld
        { seconds := 0, nanoseconds := 0 }).flagWrites.count "e1" = 1 :=
  reminder_fanout_three_records launchWorld { seconds := 0, nanoseconds := 0 }
    "e1" launchEvent "C1" "U1" "U2" (by decide) (by decide) (by decide) rfl
    rfl rfl rfl (by decide) rfl

/-! ### Claim C10: no de-duplication of reminder targets -/

/-- Attendee records match a recipient exactly as often as the attendee list
mentions that recipient. -/
theorem attendee_filter_count (now : Timestamp) (eid : String) (e : EventData)
    (u : String) (as : List String) :
    ((as.map fun a => (("user_notifications" : String),
        attendeeReminder now eid e a)).filter
      fun cn => cn.2.recipientId = u).length = as.count u := by
  induction as with
  | nil => rfl
  | cons a tl ih =>
    have hrec : (attendeeReminder now eid e a).recipientId = a := rfl
    rw [List.map_cons, List.filter_cons]
    by_cases h : a = u
    · subst h
      rw [if_pos (by simp [hrec]), List.length_cons, ih, List.count_cons_self]
    · rw [if_neg (by simp [hrec, h]), ih,
        List.count_cons_of_ne fun hh => h hh.symm]

/-- C10: a run's creations for an unflagged in-window event contain one
record per occurrence of a user in the attendees list, plus one if the user
is the (truthy) creator — duplicate attendee entries and a creator who also
attends each produce their own records, with no de-duplication. -/
theorem reminder_no_dedup (w : World) (now : Timestamp) (eid : String)
    (e : EventData) (u : String)
    (hmem : (eid, e) ∈ w.events) (hnd : (w.events.map Prod.fst).Nodup)
    (hwin : inWindow now e = true) (hun : jsTruthyBool e.reminderSent = false)
    (hq : w.eventsQueryFails = false) :
    ((createdForEvent (sendEventReminders w now) eid).filter
        fun cn => cn.2.recipientId = u).length =
      (if e.creatorId = some u ∧ u ≠ "" then 1 else 0) +
        (e.attendees.getD []).count u := by
  rw [createdForEvent_run w now eid e hmem hnd hwin hun hq]
  unfold eventNotifications
  rw [List.filter_append, List.length_append]
  congr 1
  · cases hcr : e.creatorId with
    | none => simp [jsFalsyStr]
    | some c0 =>
      by_cases hc0 : c0 = ""
      · subst hc0
        have hcond : ¬(((some "" : Option String) = some u) ∧ u ≠ "") := by
          intro hand
          exact hand.2 (Option.some.inj hand.1).symm
        rw [if_neg hcond]
        simp [jsFalsyStr]
      · have hf : jsFalsyStr (some c0) = false := by simp [jsFalsyStr, hc0]
        rw [hf]
        by_cases hcu : c0 = u
        · subst hcu
          have hcond : ((some c0 : Option String) = some c0) ∧ c0 ≠ "" := ⟨rfl, hc0⟩
          rw [if_pos hcond]
          simp [creatorReminder, jsOrEmpty]
        · have hcond : ¬(((some c0 : Option String) = some u) ∧ u ≠ "") := by
            intro hand
            exact hcu (Option.some.inj hand.1)
          rw [if_neg hcond]
          simp [creatorReminder, jsOrEmpty, hcu]
  · exact attendee_filter_count now eid e u (e.attendees.getD [])

/-- An event whose creator also appears twice in the attendee list. -/
def dupAttendeeEvent : EventData :=
  { creatorId := some "U1", name := some "Launch",
    startTime := some { seconds := 5400, nanoseconds := 0 },
    reminderSent := some false, attendees := some ["U1", "U1"] }

/-- A world holding only `dupAttendeeEvent`. -/
def dupAttendeeWorld : World :=
  { tokens := fun _ => some { token := some "tok" }
    notifStore := fun _ => []
    events := [("e1", dupAttendeeEvent)] }

/-- Witness for C10: `U1` — creator and twice an attendee — gets three
records from one run. -/
theorem reminder_no_dedup_witness :
    ((createdForEvent (sendEventReminders dupAttendeeWorld
        { seconds := 0, nanoseconds := 0 }) "e1").filter
      fun cn => cn.2.recipientId = "U1").length =
      (if dupAttendeeEvent.creatorId = some "U1" ∧ ("U1" : String) ≠ "" then 1 else 0) +
        (dupAttendeeEvent.attendees.getD []).count "U1" :=
  reminder_no_dedup dupAttendeeWorld { seconds := 0, nanoseconds := 0 }
    "e1" dupAttendeeEvent "U1" (by decide) (by decide) (by decide) rfl rfl
